import Mathlib

/-!
Verification of the Elysium Shield Integration SDK (src/shieldIntegration.js)
against its specification.

The SDK is a single JavaScript class wrapping an HTTP moderation service.
This development shallowly embeds its request/response/error-normalization
layer: JavaScript values are modelled by an inductive `Js` type, the JSON
parse of a response body by its outcome (`Except String Js`), and one HTTP
round-trip by its terminal `TransportEvent` (response / transport error /
timeout).  Numeric values are modelled as exact integers plus NaN; every
numeric value exercised by the specification's claims is far inside the
range where JavaScript doubles are exact.
-/

namespace Shield

/-- A JavaScript number as produced by `parseInt`: an integer or NaN.
(Fractional doubles never arise in the modelled code paths.) -/
inductive JsNum where
  | int (n : Int)
  | nan
deriving Repr, DecidableEq

/-- JavaScript/JSON values.  `undefined` models the `undefined` result of a
missing property access; `JSON.parse` itself never yields it.  Numbers are
modelled by `JsNum`. -/
inductive Js where
  | null
  | undefined
  | bool (b : Bool)
  | num (n : JsNum)
  | str (s : String)
  | arr (elems : List Js)
  | obj (fields : List (String × Js))
deriving Repr

/-- JavaScript truthiness. -/
def Js.truthy : Js → Bool
  | .null => false
  | .undefined => false
  | .bool b => b
  | .num (.int n) => n != 0
  | .num .nan => false
  | .str s => s != ""
  | .arr _ => true
  | .obj _ => true

/-- `typeof v === 'object'` (true for null, arrays and plain objects). -/
def Js.typeofObject : Js → Bool
  | .null => true
  | .arr _ => true
  | .obj _ => true
  | _ => false

/-- Field lookup in an object's field list; `undefined` when the key is absent. -/
def jsLookupField (fields : List (String × Js)) (key : String) : Js :=
  match fields.find? (fun p => p.1 == key) with
  | some p => p.2
  | none => .undefined

/-- Property access `v[key]`: throws a TypeError on null/undefined, returns
`undefined` for absent properties and for primitive receivers. -/
def Js.getField : Js → String → Except String Js
  | .null, k => .error ("Cannot read properties of null (reading " ++ k ++ ")")
  | .undefined, k => .error ("Cannot read properties of undefined (reading " ++ k ++ ")")
  | .obj fields, k => .ok (jsLookupField fields k)
  | _, _ => .ok .undefined

/-- Property assignment `v[key] = val` on an object value (the only shape the
source assigns into): overwrite in place if the key exists, else append. -/
def jsSetField : Js → String → Js → Js
  | .obj fields, k, v =>
      if (fields.find? (fun p => p.1 == k)).isSome then
        .obj (fields.map (fun p => if p.1 == k then (p.1, v) else p))
      else
        .obj (fields ++ [(k, v)])
  | other, _, _ => other

/-- Short-circuit `a || b`. -/
def jsOr (a b : Js) : Js := if a.truthy then a else b

mutual

/-- `String(v)` / template-literal coercion of a JavaScript value.
Array elements coerce recursively with null/undefined mapped to "". -/
def Js.display : Js → String
  | .null => "null"
  | .undefined => "undefined"
  | .bool b => if b then "true" else "false"
  | .num (.int n) => toString n
  | .num .nan => "NaN"
  | .str s => s
  | .arr xs => Js.displayArr xs
  | .obj _ => "[object Object]"

/-- Comma-joined element coercion inside `Array.prototype.toString`. -/
def Js.displayArr : List Js → String
  | [] => ""
  | [.null] => ""
  | [.undefined] => ""
  | [v] => Js.display v
  | .null :: rest => "," ++ Js.displayArr rest
  | .undefined :: rest => "," ++ Js.displayArr rest
  | v :: rest => Js.display v ++ "," ++ Js.displayArr rest

end

/-- ASCII whitespace trimmed by `parseInt`. -/
def jsIsSpace (c : Char) : Bool :=
  c == ' ' || c == '\t' || c == '\n' || c == '\r' || c == '\x0b' || c == '\x0c'

/-- Digit value of a character in the given base (only 10 and 16 are used). -/
def digitVal (base : Nat) (c : Char) : Option Nat :=
  if c.isDigit then
    some (c.toNat - 48)
  else if base == 16 && 'a' ≤ c && c ≤ 'f' then
    some (c.toNat - 87)
  else if base == 16 && 'A' ≤ c && c ≤ 'F' then
    some (c.toNat - 55)
  else
    none

/-- ECMAScript `parseInt(s)` with unspecified radix: trim leading whitespace,
optional sign, optional 0x/0X hex prefix, then the longest digit prefix;
`none` models NaN (no digit found). -/
def jsParseInt (s : String) : Option Int :=
  let cs := s.toList.dropWhile jsIsSpace
  let signAndRest : Int × List Char :=
    match cs with
    | '-' :: rest => (-1, rest)
    | '+' :: rest => (1, rest)
    | _ => (1, cs)
  let sign := signAndRest.1
  let baseAndRest : Nat × List Char :=
    match signAndRest.2 with
    | '0' :: c :: rest =>
        if c == 'x' || c == 'X' then (16, rest) else (10, '0' :: c :: rest)
    | other => (10, other)
  let base := baseAndRest.1
  let digits := baseAndRest.2.takeWhile (fun c => (digitVal base c).isSome)
  if digits.isEmpty then none
  else some (sign * (digits.foldl (fun acc c => acc * (base : Int) + ((digitVal base c).getD 0 : Nat)) 0))

/-- The response headers _request consults; `none` models an absent header. -/
structure Headers where
  xRateLimitLimit : Option String := none
  xRateLimitRemaining : Option String := none
  xRateLimitReset : Option String := none
  retryAfter : Option String := none
deriving Repr, DecidableEq

/-- Truthiness of `res.headers[name]`: the header is present and non-empty. -/
def headerTruthy : Option String → Bool
  | none => false
  | some s => s != ""

/-- Left-pad a natural number with zeros to the given width. -/
def padNum (width : Nat) (n : Nat) : String :=
  let s := toString n
  String.mk (List.replicate (width - s.length) '0') ++ s

/-- Proleptic Gregorian date (year, month, day) from days since 1970-01-01,
by the standard era-based conversion.  `Int` division and remainder are
Euclidean, hence flooring for the positive divisors used here. -/
def civilFromDays (days : Int) : Int × Nat × Nat :=
  let z := days + 719468
  let era : Int := z / 146097
  let doe : Int := z % 146097
  let yoe : Int := (doe - doe / 1460 + doe / 36524 - doe / 146096) / 365
  let y : Int := yoe + era * 400
  let doy : Int := doe - (365 * yoe + yoe / 4 - yoe / 100)
  let mp : Int := (5 * doy + 2) / 153
  let d : Int := doy - (153 * mp + 2) / 5 + 1
  let m : Int := if mp < 10 then mp + 3 else mp - 9
  (if m ≤ 2 then y + 1 else y, m.toNat, d.toNat)

/-- `new Date(ms).toISOString()`: a RangeError outside the representable
range of ±8.64e15 ms, otherwise an ISO-8601 UTC string; years outside
[0, 9999] use the six-digit expanded form. -/
def jsDateToISOString (ms : Int) : Except String String :=
  if ms.natAbs ≤ 8640000000000000 then
    let days : Int := ms / 86400000
    let msOfDay : Nat := (ms % 86400000).toNat
    let ymd := civilFromDays days
    let y := ymd.1
    let yearStr :=
      if 0 ≤ y ∧ y ≤ 9999 then padNum 4 y.toNat
      else if 9999 < y then "+" ++ padNum 6 y.toNat
      else "-" ++ padNum 6 (-y).toNat
    .ok (yearStr ++ "-" ++ padNum 2 ymd.2.1 ++ "-" ++ padNum 2 ymd.2.2 ++
         "T" ++ padNum 2 (msOfDay / 3600000) ++ ":" ++ padNum 2 (msOfDay / 60000 % 60) ++
         ":" ++ padNum 2 (msOfDay / 1000 % 60) ++ "." ++ padNum 3 (msOfDay % 1000) ++ "Z")
  else
    .error "Invalid time value"

/-- The rate-limit snapshot _request assembles field by field (lines 83–98);
a `none` field was never assigned, matching the JS object having no such
key — absent headers leave their fields out rather than zeroing them. -/
structure RateLimitInfo where
  limit : Option JsNum := none
  remaining : Option JsNum := none
  resetAt : Option String := none
  resetTimestamp : Option JsNum := none
  retryAfter : Option JsNum := none
deriving Repr, DecidableEq

/-- `Object.keys(rateLimit).length > 0` is the negation of this. -/
def RateLimitInfo.isEmpty (rl : RateLimitInfo) : Bool :=
  rl.limit.isNone && rl.remaining.isNone && rl.resetAt.isNone &&
  rl.resetTimestamp.isNone && rl.retryAfter.isNone

/-- `parseInt` result as a field value: NaN when no digits parsed. -/
def parsedNum (o : Option Int) : JsNum :=
  match o with
  | some n => .int n
  | none => .nan

/-- Lines 83–98 of shieldIntegration.js: build the rateLimit object from the
response headers.  Each header is independently optional; a present reset
header is converted into both an ISO-8601 string and the raw epoch integer.
A present-but-unparsable reset header makes `new Date(NaN).toISOString()`
throw, which the enclosing try/catch turns into the parse-failure rejection
(assignment order only matters for key order, preserved in `rlToJs`). -/
def extractRateLimit (h : Headers) : Except String RateLimitInfo :=
  let base : RateLimitInfo := {
    limit :=
      if headerTruthy h.xRateLimitLimit then
        some (parsedNum (jsParseInt (h.xRateLimitLimit.getD "")))
      else none,
    remaining :=
      if headerTruthy h.xRateLimitRemaining then
        some (parsedNum (jsParseInt (h.xRateLimitRemaining.getD "")))
      else none,
    retryAfter :=
      if headerTruthy h.retryAfter then
        some (parsedNum (jsParseInt (h.retryAfter.getD "")))
      else none }
  if headerTruthy h.xRateLimitReset then
    match jsParseInt (h.xRateLimitReset.getD "") with
    | none => .error "Invalid time value"
    | some t =>
      match jsDateToISOString (t * 1000) with
      | .error e => .error e
      | .ok iso => .ok { base with resetAt := some iso, resetTimestamp := some (.int t) }
  else
    .ok base

/-- The rateLimit object as a JS value, keys in assignment order. -/
def rlToJs (rl : RateLimitInfo) : Js :=
  .obj ((match rl.limit with | some n => [("limit", Js.num n)] | none => []) ++
        (match rl.remaining with | some n => [("remaining", Js.num n)] | none => []) ++
        (match rl.resetAt with | some s => [("resetAt", Js.str s)] | none => []) ++
        (match rl.resetTimestamp with | some n => [("resetTimestamp", Js.num n)] | none => []) ++
        (match rl.retryAfter with | some n => [("retryAfter", Js.num n)] | none => []))

/-- The plain object handed to `reject(...)` in _request.  `rateLimit` is
`some _` exactly when the rejected object literal carried a rateLimit key
(the non-2xx branch always includes it; the parse-failure, transport-error
and timeout rejections do not). -/
structure NormalizedError where
  statusCode : Option Int := none
  message : Js
  error : Js
  rateLimit : Option RateLimitInfo := none
deriving Repr

/-- The response-completion handler, lines 78–124: the whole try block —
JSON.parse (modelled by its outcome `parsed`), rate-limit extraction,
conditional injection of the rateLimit object into the body, and the 2xx
status branch.  Every throw inside the try (parse failure, NaN reset epoch,
property access on a null body in the reject literal) lands in the catch of
lines 117–123, rejecting with the fixed parse-failure message, the original
status code and the exception detail. -/
def handleResponse (statusCode : Int) (h : Headers) (parsed : Except String Js) :
    Except NormalizedError Js :=
  let parseFail (e : String) : Except NormalizedError Js :=
    .error { statusCode := some statusCode, message := .str "Failed to parse response",
             error := .str e }
  match parsed with
  | .error e => parseFail e
  | .ok body =>
    match extractRateLimit h with
    | .error e => parseFail e
    | .ok rl =>
      let response :=
        if body.truthy && body.typeofObject && !rl.isEmpty then
          jsSetField body "rateLimit" (rlToJs rl)
        else body
      if 200 ≤ statusCode ∧ statusCode < 300 then
        .ok response
      else
        match response.getField "message" with
        | .error e => parseFail e
        | .ok msgField =>
          match response.getField "error" with
          | .error e => parseFail e
          | .ok errField =>
            .error { statusCode := some statusCode,
                     message := jsOr msgField (jsOr errField (.str "Request failed")),
                     error := jsOr errField (.str "Unknown error"),
                     rateLimit := some rl }

/-- Immutable configuration held by a ShieldIntegration instance. -/
structure Config where
  apiKey : String
  apiUrl : String
  timeout : Int
  debug : Bool
deriving Repr, DecidableEq

def defaultApiUrl : String := "https://elysium-online.xyz/api"

/-- The constructor's options object; `none` models an absent key. -/
structure Options where
  apiUrl : Option String := none
  timeout : Option Int := none
  debug : Option Bool := none
deriving Repr

/-- Truthiness of `options.timeout` (a number: zero is falsy). -/
def optIntTruthy : Option Int → Bool
  | none => false
  | some n => n != 0

/-- Truthiness of `options.debug` (a boolean). -/
def optBoolTruthy : Option Bool → Bool
  | none => false
  | some b => b

/-- Lines 25–37: the ShieldIntegration constructor.  Throws when apiKey is
falsy; each option falls back to its default via `||` when falsy; performs
no I/O (the trailing `_log` prints only under debug). -/
def mkShieldIntegration (apiKey : String) (opts : Options) : Except String Config :=
  if apiKey = "" then
    .error "Shield API key is required. Get one at https://elysium-online.xyz/profile"
  else
    .ok { apiKey := apiKey,
          apiUrl := if headerTruthy opts.apiUrl then opts.apiUrl.getD "" else defaultApiUrl,
          timeout := if optIntTruthy opts.timeout then opts.timeout.getD 0 else 10000,
          debug := optBoolTruthy opts.debug }

/-- The single terminal event of one _request round-trip (lines 71–141):
a complete response with the JSON.parse outcome of its accumulated body, a
transport-level error, or the timeout (on which the request is destroyed). -/
inductive TransportEvent where
  | response (statusCode : Int) (headers : Headers) (parsed : Except String Js)
  | transportError (errMessage : String)
  | timeout
deriving Repr

/-- Outcome of one `_request(method, endpoint, data)` invocation given its
terminal transport event (lines 53–149).  The method, endpoint and body do
not influence the outcome; they are recorded separately as the emitted
network call. -/
def requestOutcome (cfg : Config) (ev : TransportEvent) : Except NormalizedError Js :=
  match ev with
  | .response sc h parsed => handleResponse sc h parsed
  | .transportError m =>
      .error { message := .str "Network error", error := .str m }
  | .timeout =>
      .error { message := .str "Request timeout",
               error := .str ("Request exceeded " ++ toString cfg.timeout ++ "ms") }

/-- One network call as issued by `_request`: HTTP method, endpoint path,
and the optional JSON body (`none` when `data` is null and nothing is
written). -/
structure NetworkCall where
  method : String
  endpoint : String
  body : Option Js
deriving Repr

/-- What a catch clause in a public operation can receive: the reject
object from _request, or a thrown Error (which carries only its message
string). -/
inductive CaughtError where
  | rejected (e : NormalizedError)
  | thrown (message : String)
deriving Repr

/-- `error.message` of a caught value. -/
def CaughtError.messageJs : CaughtError → Js
  | .rejected e => e.message
  | .thrown m => .str m

def checkEndpoint : String := "/api/v1/shield/check"
def reportEndpoint : String := "/api/v1/shield/report-action"
def statsEndpoint : String := "/api/v1/shield/stats"

/-- The shared try-block of the three data operations (e.g. checkUser lines
179–186): await _request; if `response.success` is falsy, throw
`new Error(response.error || fallback)`; otherwise project the result.
Property accesses on a null/undefined response throw TypeErrors that the
same catch receives. -/
def operationTry (cfg : Config) (ev : TransportEvent) (fallback : String)
    (project : Js → Except CaughtError Js) : Except CaughtError Js :=
  match requestOutcome cfg ev with
  | .error ne => .error (.rejected ne)
  | .ok response =>
    match response.getField "success" with
    | .error e => .error (.thrown e)
    | .ok s =>
      if s.truthy then project response
      else
        match response.getField "error" with
        | .error e => .error (.thrown e)
        | .ok errField => .error (.thrown ((jsOr errField (.str fallback)).display))

/-- Wrap a try-block result the way the catch clauses do: the template
literal prepends the operation-specific prefix to `error.message`.  A plain
`Error` carries only its message string, so the surfaced failure is
modelled as that string. -/
def wrapCatch (prefixMsg : String) (r : Except CaughtError Js) : Except String Js :=
  match r with
  | .ok v => .ok v
  | .error ce => .error (prefixMsg ++ ce.messageJs.display)

/-- `response.data` projection used by checkUser and getNetworkStats; the
response is known non-null here (its `success` access just succeeded), but
the access is still threaded for faithfulness. -/
def projectData : Js → Except CaughtError Js := fun response =>
  match response.getField "data" with
  | .error e => .error (.thrown e)
  | .ok d => .ok d

/-- Lines 174–190: `checkUser(userId)`.  Returns the operation's result
together with the list of network calls issued. -/
def checkUser (cfg : Config) (userId : String) (ev : TransportEvent) :
    Except String Js × List NetworkCall :=
  if userId = "" then
    (.error "User ID is required", [])
  else
    let call : NetworkCall :=
      { method := "POST", endpoint := checkEndpoint,
        body := some (.obj [("userId", .str userId)]) }
    (wrapCatch "Failed to check user: "
       (operationTry cfg ev "Failed to check user" projectData), [call])

/-- The five required reportAction fields, in validation order (line 215). -/
def requiredFields : List String := ["userId", "guildId", "actionType", "reason", "moderatorId"]

/-- The fixed nine-value actionType set (line 222). -/
def validActions : List String :=
  ["ban", "kick", "timeout", "mute", "warn", "unban", "untimeout", "unmute", "remove_warning"]

/-- `validActions.includes(actionData.actionType)`: strict equality against
a list of strings, so only string values can match. -/
def includesJs (xs : List String) (v : Js) : Bool :=
  match v with
  | .str s => xs.contains s
  | _ => false

/-- Lines 214–238: `reportAction(actionData)` with actionData an object
given by its field list.  Validation happens before any network call: the
first falsy required field is named; then the actionType must be in the
fixed set.  On success the full normalized response is returned. -/
def reportAction (cfg : Config) (actionData : List (String × Js)) (ev : TransportEvent) :
    Except String Js × List NetworkCall :=
  match requiredFields.find? (fun f => !(jsLookupField actionData f).truthy) with
  | some f => (.error (f ++ " is required"), [])
  | none =>
    if !includesJs validActions (jsLookupField actionData "actionType") then
      (.error ("Invalid action type. Must be one of: " ++ String.intercalate ", " validActions), [])
    else
      let call : NetworkCall :=
        { method := "POST", endpoint := reportEndpoint, body := some (.obj actionData) }
      (wrapCatch "Failed to report action: "
         (operationTry cfg ev "Failed to report action" .ok), [call])

/-- Lines 248–260: `getNetworkStats()`. -/
def getNetworkStats (cfg : Config) (ev : TransportEvent) :
    Except String Js × List NetworkCall :=
  let call : NetworkCall := { method := "GET", endpoint := statsEndpoint, body := none }
  (wrapCatch "Failed to get network stats: "
     (operationTry cfg ev "Failed to get network stats" projectData), [call])

/-- Lines 266–273: `verifyApiKey()` — try getNetworkStats, return true on
resolve, false on any failure; the catch never rethrows. -/
def verifyApiKey (cfg : Config) (ev : TransportEvent) :
    Except String Bool × List NetworkCall :=
  let r := getNetworkStats cfg ev
  match r.1 with
  | .ok _ => (.ok true, r.2)
  | .error _ => (.ok false, r.2)

/-- The instance's only cross-call mutable state: the `_lastRateLimit`
field read by `getRateLimit` (line 160).  No statement anywhere in
shieldIntegration.js assigns `_lastRateLimit`, so it holds `undefined`
(modelled `none`) for the life of the instance. -/
structure InstanceState where
  lastRateLimit : Option RateLimitInfo
deriving Repr, DecidableEq

/-- A fresh instance: `_lastRateLimit` is undefined. -/
def initialState : InstanceState := { lastRateLimit := none }

/-- State transition performed by one completed `_request` round-trip:
the method reads and writes no instance field beyond its arguments, so the
state is unchanged whatever the terminal event was. -/
def requestStateStep (st : InstanceState) (_ev : TransportEvent) : InstanceState := st

/-- Lines 159–161: `getRateLimit()` returns `this._lastRateLimit || null`
(a stored object is truthy, so it is returned as-is; undefined becomes
null, both modelled `none`). -/
def getRateLimit (st : InstanceState) : Option RateLimitInfo :=
  match st.lastRateLimit with
  | some rl => some rl
  | none => none

/-- A concrete configuration used to instantiate closed statements. -/
def cfg0 : Config :=
  { apiKey := "key", apiUrl := defaultApiUrl, timeout := 10000, debug := false }

/-- C1: `getRateLimit()` does return none before any request, but it also
returns none after a completed request: `_lastRateLimit` is never assigned
anywhere in the class, so the accessor never reflects the snapshot that the
request's headers produced (here a nonempty one with limit 100 and
remaining 99), contradicting the accessor's own documented example. -/
theorem getRateLimit_never_reflects_completed_request :
    getRateLimit initialState = none ∧
    (∀ ev : TransportEvent, getRateLimit (requestStateStep initialState ev) = none) ∧
    extractRateLimit { xRateLimitLimit := some "100", xRateLimitRemaining := some "99" } =
      .ok { limit := some (.int 100), remaining := some (.int 99) } :=
  ⟨rfl, fun _ => rfl, rfl⟩

/-- C2: the uniform {statusCode?, message, error, rateLimit?} shape exists
only at the `_request` rejection.  The public operation's catch rethrows
`new Error(prefix + message)`, a plain Error carrying only its message
string, so the status code and rate-limit snapshot do not remain available:
a 403 response with a retry-after header and a 401 response with no
rate-limit headers, carrying the same message text, surface as literally
identical errors from `checkUser`. -/
theorem checkUser_error_drops_statusCode_and_rateLimit :
    requestOutcome cfg0
        (.response 403 { retryAfter := some "42" }
          (.ok (.obj [("message", .str "Invalid API key")]))) =
      .error { statusCode := some 403, message := .str "Invalid API key",
               error := .str "Unknown error",
               rateLimit := some { retryAfter := some (.int 42) } } ∧
    requestOutcome cfg0
        (.response 401 {} (.ok (.obj [("message", .str "Invalid API key")]))) =
      .error { statusCode := some 401, message := .str "Invalid API key",
               error := .str "Unknown error", rateLimit := some {} } ∧
    (checkUser cfg0 "123"
        (.response 403 { retryAfter := some "42" }
          (.ok (.obj [("message", .str "Invalid API key")])))).1 =
      .error "Failed to check user: Invalid API key" ∧
    (checkUser cfg0 "123"
        (.response 403 { retryAfter := some "42" }
          (.ok (.obj [("message", .str "Invalid API key")])))).1 =
      (checkUser cfg0 "123"
        (.response 401 {} (.ok (.obj [("message", .str "Invalid API key")])))).1 :=
  ⟨rfl, rfl, rfl, rfl⟩

/-- C5: a response body that fails to parse as JSON — whatever the status
code, including ones in [200,300) — always rejects with the fixed message,
the original status code and the parse failure detail, never resolving. -/
theorem parse_failure_always_error (cfg : Config) (sc : Int) (h : Headers) (e : String) :
    requestOutcome cfg (.response sc h (.error e)) =
      .error { statusCode := some sc, message := .str "Failed to parse response",
               error := .str e, rateLimit := none } ∧
    ∀ v : Js, requestOutcome cfg (.response sc h (.error e)) ≠ .ok v := by
  refine ⟨rfl, fun v hv => ?_⟩
  rw [show requestOutcome cfg (.response sc h (.error e)) =
        .error { statusCode := some sc, message := .str "Failed to parse response",
                 error := .str e, rateLimit := none } from rfl] at hv
  exact Except.noConfusion hv

/-- C6: `verifyApiKey()` never throws: its result is always a boolean
`.ok`, true exactly when `getNetworkStats` resolves and false for every
failure mode. -/
theorem verifyApiKey_boolean_probe (cfg : Config) (ev : TransportEvent) :
    ((verifyApiKey cfg ev).1 = .ok true ∨ (verifyApiKey cfg ev).1 = .ok false) ∧
    ((verifyApiKey cfg ev).1 = .ok true ↔ ∃ v, (getNetworkStats cfg ev).1 = .ok v) := by
  cases hr : (getNetworkStats cfg ev).1 with
  | ok v =>
      simp only [verifyApiKey, hr]
      exact ⟨Or.inl trivial, by simp⟩
  | error e =>
      simp only [verifyApiKey, hr]
      exact ⟨Or.inr trivial, by simp⟩

/-- C10: constructing the client with a non-empty credential always
succeeds (and performs no I/O in the model); each falsy configuration
option silently falls back to its default — timeout 0 becomes 10000,
apiUrl '' becomes the default base URL, debug false stays disabled — so no
constructed configuration ever has a zero timeout or an empty base URL. -/
theorem constructor_falsy_options_default (apiKey : String) (opts : Options)
    (hk : apiKey ≠ "") :
    (∃ cfg, mkShieldIntegration apiKey opts = .ok cfg) ∧
    (∀ cfg, mkShieldIntegration apiKey opts = .ok cfg →
       cfg.apiKey = apiKey ∧ cfg.timeout ≠ 0 ∧ cfg.apiUrl ≠ "") ∧
    (opts.timeout = some 0 →
       ∀ cfg, mkShieldIntegration apiKey opts = .ok cfg → cfg.timeout = 10000) ∧
    (opts.apiUrl = some "" →
       ∀ cfg, mkShieldIntegration apiKey opts = .ok cfg → cfg.apiUrl = defaultApiUrl) ∧
    ((opts.debug = some false ∨ opts.debug = none) →
       ∀ cfg, mkShieldIntegration apiKey opts = .ok cfg → cfg.debug = false) := by
  have hmk : mkShieldIntegration apiKey opts =
      .ok { apiKey := apiKey,
            apiUrl := if headerTruthy opts.apiUrl then opts.apiUrl.getD "" else defaultApiUrl,
            timeout := if optIntTruthy opts.timeout then opts.timeout.getD 0 else 10000,
            debug := optBoolTruthy opts.debug } := by
    simp [mkShieldIntegration, hk]
  refine ⟨⟨_, hmk⟩, ?_, ?_, ?_, ?_⟩
  · intro cfg hcfg
    rw [hmk] at hcfg
    injection hcfg with hcfg
    subst hcfg
    refine ⟨rfl, ?_, ?_⟩
    · cases hot : opts.timeout with
      | none => simp [optIntTruthy, hot]
      | some n =>
          by_cases hn : n = 0
          · simp [optIntTruthy, hot, hn]
          · simp [optIntTruthy, hot, hn]
    · cases hou : opts.apiUrl with
      | none => simp [headerTruthy, hou, defaultApiUrl]
      | some u =>
          by_cases hu : u = ""
          · simp [headerTruthy, hou, hu, defaultApiUrl]
          · simp [headerTruthy, hou, hu]
  · intro h0 cfg hcfg
    rw [hmk] at hcfg
    injection hcfg with hcfg
    subst hcfg
    simp [optIntTruthy, h0]
  · intro h0 cfg hcfg
    rw [hmk] at hcfg
    injection hcfg with hcfg
    subst hcfg
    simp [headerTruthy, h0]
  · intro h0 cfg hcfg
    rw [hmk] at hcfg
    injection hcfg with hcfg
    subst hcfg
    rcases h0 with h0 | h0 <;> simp [optBoolTruthy, h0]

/-- C10 witness: with credential "key" and the all-falsy options
{apiUrl: '', timeout: 0, debug: false}, construction succeeds and yields
the default base URL, the 10000 ms default timeout, and debug disabled. -/
theorem constructor_falsy_options_default_witness :
    ("key" : String) ≠ "" ∧
    mkShieldIntegration "key" { apiUrl := some "", timeout := some 0, debug := some false } =
      .ok { apiKey := "key", apiUrl := defaultApiUrl, timeout := 10000, debug := false } ∧
    (∃ cfg, mkShieldIntegration "key"
        { apiUrl := some "", timeout := some 0, debug := some false } = .ok cfg) :=
  ⟨by decide, rfl,
   (constructor_falsy_options_default "key"
      { apiUrl := some "", timeout := some 0, debug := some false } (by decide)).1⟩

/-- Property access on anything but null/undefined succeeds. -/
lemma getField_ok_of_ne (v : Js) (k : String) (h1 : v ≠ .null) (h2 : v ≠ .undefined) :
    ∃ w, v.getField k = .ok w := by
  cases v with
  | null => exact absurd rfl h1
  | undefined => exact absurd rfl h2
  | bool b => exact ⟨.undefined, rfl⟩
  | num n => exact ⟨.undefined, rfl⟩
  | str s => exact ⟨.undefined, rfl⟩
  | arr xs => exact ⟨.undefined, rfl⟩
  | obj fields => exact ⟨_, rfl⟩

/-- Property assignment preserves being neither null nor undefined. -/
lemma jsSetField_ne (v : Js) (k : String) (w : Js) (h1 : v ≠ .null) (h2 : v ≠ .undefined) :
    jsSetField v k w ≠ .null ∧ jsSetField v k w ≠ .undefined := by
  cases v with
  | obj fields =>
      constructor <;> · simp only [jsSetField]; split <;> simp
  | null => exact ⟨h1, h2⟩
  | undefined => exact ⟨h1, h2⟩
  | bool b => exact ⟨h1, h2⟩
  | num n => exact ⟨h1, h2⟩
  | str s => exact ⟨h1, h2⟩
  | arr xs => exact ⟨h1, h2⟩

/-- C7: whenever the status code is outside [200,300), the body parsed, the
rate-limit extraction succeeded, and the body is not null/undefined (so the
reject literal's property reads do not throw), the rejection always carries
`rateLimit = some rl` — exactly the RateLimitInfo extracted from the
response headers. -/
theorem error_branch_attaches_rateLimit (cfg : Config) (sc : Int) (h : Headers)
    (body : Js) (rl : RateLimitInfo)
    (hsc : ¬(200 ≤ sc ∧ sc < 300)) (hrl : extractRateLimit h = .ok rl)
    (h1 : body ≠ .null) (h2 : body ≠ .undefined) :
    ∃ m e, requestOutcome cfg (.response sc h (.ok body)) =
      .error { statusCode := some sc, message := m, error := e, rateLimit := some rl } := by
  have hstep : requestOutcome cfg (.response sc h (.ok body)) =
      handleResponse sc h (.ok body) := rfl
  rw [hstep]
  simp only [handleResponse, hrl]
  set response := if body.truthy && body.typeofObject && !rl.isEmpty then
      jsSetField body "rateLimit" (rlToJs rl) else body with hresp
  have hr : response ≠ .null ∧ response ≠ .undefined := by
    rw [hresp]
    split
    · exact jsSetField_ne body _ _ h1 h2
    · exact ⟨h1, h2⟩
  obtain ⟨mf, hmf⟩ := getField_ok_of_ne response "message" hr.1 hr.2
  obtain ⟨ef, hef⟩ := getField_ok_of_ne response "error" hr.1 hr.2
  rw [if_neg hsc, hmf, hef]
  exact ⟨_, _, rfl⟩

/-- C7 witness: a 429 response with `x-ratelimit-remaining: 0` and
`retry-after: 42` rejects with rateLimit.remaining = 0 and
rateLimit.retryAfter = 42. -/
theorem error_branch_attaches_rateLimit_witness :
    extractRateLimit { xRateLimitRemaining := some "0", retryAfter := some "42" } =
      .ok { remaining := some (.int 0), retryAfter := some (.int 42) } ∧
    ¬(200 ≤ (429 : Int) ∧ (429 : Int) < 300) ∧
    (∃ m e, requestOutcome cfg0
        (.response 429 { xRateLimitRemaining := some "0", retryAfter := some "42" }
          (.ok (.obj [("message", .str "Rate limit exceeded")]))) =
      .error { statusCode := some 429, message := m, error := e,
               rateLimit := some { remaining := some (.int 0), retryAfter := some (.int 42) } }) :=
  ⟨rfl, by decide,
   error_branch_attaches_rateLimit cfg0 429
     { xRateLimitRemaining := some "0", retryAfter := some "42" }
     (.obj [("message", .str "Rate limit exceeded")])
     { remaining := some (.int 0), retryAfter := some (.int 42) }
     (by decide) rfl (by simp) (by simp)⟩

/-- A truthy, parsable, in-range reset header sets both resetAt (the
ISO-8601 string) and resetTimestamp (the raw epoch integer). -/
lemma extractRateLimit_reset (h : Headers) (s : String) (t : Int) (iso : String)
    (hs : h.xRateLimitReset = some s) (hne : s ≠ "")
    (hp : jsParseInt s = some t) (hiso : jsDateToISOString (t * 1000) = .ok iso) :
    ∃ rl, extractRateLimit h = .ok rl ∧ rl.resetAt = some iso ∧
          rl.resetTimestamp = some (.int t) := by
  have ht : headerTruthy h.xRateLimitReset = true := by
    rw [hs]; simp [headerTruthy, hne]
  have hgd : h.xRateLimitReset.getD "" = s := by rw [hs]; rfl
  unfold extractRateLimit
  simp only [ht, hgd, hp, hiso]
  exact ⟨_, rfl, rfl, rfl⟩

/-- C8: for every response whose reset header holds epoch value t (within
the Date-representable range), the extracted RateLimitInfo carries
resetTimestamp = t exactly and resetAt = the ISO-8601 encoding of t; and
the encoding is deterministic — any other response whose reset header
parses to the same t yields the identical resetAt string. -/
theorem reset_header_iso_and_epoch (h : Headers) (s : String) (t : Int)
    (hs : h.xRateLimitReset = some s) (hne : s ≠ "")
    (hp : jsParseInt s = some t) (hrange : (t * 1000).natAbs ≤ 8640000000000000) :
    ∃ iso, jsDateToISOString (t * 1000) = .ok iso ∧
      (∃ rl, extractRateLimit h = .ok rl ∧ rl.resetAt = some iso ∧
             rl.resetTimestamp = some (.int t)) ∧
      (∀ h2 s2, h2.xRateLimitReset = some s2 → s2 ≠ "" → jsParseInt s2 = some t →
        ∀ rl2, extractRateLimit h2 = .ok rl2 →
          rl2.resetAt = some iso ∧ rl2.resetTimestamp = some (.int t)) := by
  obtain ⟨iso, hiso⟩ : ∃ iso, jsDateToISOString (t * 1000) = .ok iso := by
    unfold jsDateToISOString
    rw [if_pos hrange]
    exact ⟨_, rfl⟩
  refine ⟨iso, hiso, extractRateLimit_reset h s t iso hs hne hp hiso, ?_⟩
  intro h2 s2 hs2 hne2 hp2 rl2 hrl2
  obtain ⟨rl2x, hrl2x, ha, hb⟩ := extractRateLimit_reset h2 s2 t iso hs2 hne2 hp2 hiso
  rw [hrl2] at hrl2x
  injection hrl2x with he
  rw [← he] at ha hb
  exact ⟨ha, hb⟩

/-- C8 witness: a response with `x-ratelimit-reset: 1763566621` yields
resetAt = "2025-11-19T15:37:01.000Z" (the ISO-8601 encoding of that Unix
timestamp) and resetTimestamp = 1763566621 exactly. -/
theorem reset_header_iso_and_epoch_witness :
    jsParseInt "1763566621" = some 1763566621 ∧
    jsDateToISOString (1763566621 * 1000) = .ok "2025-11-19T15:37:01.000Z" ∧
    extractRateLimit { xRateLimitReset := some "1763566621" } =
      .ok { resetAt := some "2025-11-19T15:37:01.000Z",
            resetTimestamp := some (.int 1763566621) } ∧
    (∃ iso, jsDateToISOString ((1763566621 : Int) * 1000) = .ok iso ∧
      (∃ rl, extractRateLimit { xRateLimitReset := some "1763566621" } = .ok rl ∧
             rl.resetAt = some iso ∧ rl.resetTimestamp = some (.int 1763566621)) ∧
      (∀ h2 s2, h2.xRateLimitReset = some s2 → s2 ≠ "" →
        jsParseInt s2 = some 1763566621 →
        ∀ rl2, extractRateLimit h2 = .ok rl2 →
          rl2.resetAt = some iso ∧ rl2.resetTimestamp = some (.int 1763566621))) :=
  ⟨rfl, rfl, rfl,
   reset_header_iso_and_epoch { xRateLimitReset := some "1763566621" } "1763566621"
     1763566621 rfl (by decide) rfl (by decide)⟩

/-- What a successful extraction says about each RateLimitInfo field: the
three directly-parsed fields mirror their headers' truthiness, and the two
reset-derived fields are both absent or both present according to the
reset header. -/
lemma extractRateLimit_ok_fields (h : Headers) (rl : RateLimitInfo)
    (hx : extractRateLimit h = .ok rl) :
    rl.limit = (if headerTruthy h.xRateLimitLimit then
        some (parsedNum (jsParseInt (h.xRateLimitLimit.getD ""))) else none) ∧
    rl.remaining = (if headerTruthy h.xRateLimitRemaining then
        some (parsedNum (jsParseInt (h.xRateLimitRemaining.getD ""))) else none) ∧
    rl.retryAfter = (if headerTruthy h.retryAfter then
        some (parsedNum (jsParseInt (h.retryAfter.getD ""))) else none) ∧
    (headerTruthy h.xRateLimitReset = false →
       rl.resetAt = none ∧ rl.resetTimestamp = none) ∧
    (headerTruthy h.xRateLimitReset = true →
       ∃ t iso, rl.resetAt = some iso ∧ rl.resetTimestamp = some (.int t)) := by
  unfold extractRateLimit at hx
  cases ht : headerTruthy h.xRateLimitReset with
  | false =>
      simp only [ht, Bool.false_eq_true, if_false] at hx
      injection hx with hx
      subst hx
      refine ⟨rfl, rfl, rfl, fun _ => ⟨rfl, rfl⟩, fun hc => ?_⟩
      exact absurd hc (by simp)
  | true =>
      simp only [ht, if_true] at hx
      cases hp : jsParseInt (h.xRateLimitReset.getD "") with
      | none => rw [hp] at hx; exact absurd hx (by simp)
      | some t =>
          simp only [hp] at hx
          cases hiso : jsDateToISOString (t * 1000) with
          | error e => simp only [hiso] at hx; exact absurd hx (by simp)
          | ok iso =>
              simp only [hiso] at hx
              injection hx with hx
              subst hx
              refine ⟨rfl, rfl, rfl, fun hc => ?_, fun _ => ⟨t, iso, rfl, rfl⟩⟩
              exact absurd hc (by simp)

/-- C9: on a successful (2xx) response with an object body, the rateLimit
object is injected into the parsed body exactly when at least one of the
four rate-limit headers was present (truthy): with no rate-limit header the
body is resolved unchanged — in particular an object body without a
rateLimit key resolves with no rateLimit field at all — and within the
snapshot each absent header leaves its field omitted, not zeroed. -/
theorem success_rateLimit_injection (cfg : Config) (sc : Int) (h : Headers)
    (fields : List (String × Js)) (rl : RateLimitInfo)
    (hsc : 200 ≤ sc ∧ sc < 300) (hx : extractRateLimit h = .ok rl) :
    (rl.isEmpty = true →
       requestOutcome cfg (.response sc h (.ok (.obj fields))) = .ok (.obj fields)) ∧
    (rl.isEmpty = false →
       requestOutcome cfg (.response sc h (.ok (.obj fields))) =
         .ok (jsSetField (.obj fields) "rateLimit" (rlToJs rl))) ∧
    ((fields.find? (fun p => p.1 == "rateLimit")).isNone →
       Js.getField (.obj fields) "rateLimit" = .ok .undefined) ∧
    (rl.isEmpty = true ↔
       (headerTruthy h.xRateLimitLimit = false ∧ headerTruthy h.xRateLimitRemaining = false ∧
        headerTruthy h.xRateLimitReset = false ∧ headerTruthy h.retryAfter = false)) ∧
    (headerTruthy h.xRateLimitLimit = false → rl.limit = none) ∧
    (headerTruthy h.xRateLimitRemaining = false → rl.remaining = none) ∧
    (headerTruthy h.xRateLimitReset = false →
       rl.resetAt = none ∧ rl.resetTimestamp = none) ∧
    (headerTruthy h.retryAfter = false → rl.retryAfter = none) ∧
    (rl.limit = none → Js.getField (rlToJs rl) "limit" = .ok .undefined) := by
  obtain ⟨hfl, hfr, hfa, hrst0, hrst1⟩ := extractRateLimit_ok_fields h rl hx
  have hLimF : headerTruthy h.xRateLimitLimit = false → rl.limit = none := by
    intro hc; rw [hfl, hc]; simp
  have hRemF : headerTruthy h.xRateLimitRemaining = false → rl.remaining = none := by
    intro hc; rw [hfr, hc]; simp
  have hRetF : headerTruthy h.retryAfter = false → rl.retryAfter = none := by
    intro hc; rw [hfa, hc]; simp
  refine ⟨?_, ?_, ?_, ?_, hLimF, hRemF, hrst0, hRetF, ?_⟩
  · intro hEmpty
    have : requestOutcome cfg (.response sc h (.ok (.obj fields))) =
        handleResponse sc h (.ok (.obj fields)) := rfl
    rw [this]
    simp [handleResponse, hx, hEmpty, Js.truthy, Js.typeofObject, hsc]
  · intro hEmpty
    have : requestOutcome cfg (.response sc h (.ok (.obj fields))) =
        handleResponse sc h (.ok (.obj fields)) := rfl
    rw [this]
    simp [handleResponse, hx, hEmpty, Js.truthy, Js.typeofObject, hsc]
  · intro hfind
    have hfind2 : fields.find? (fun p => p.1 == "rateLimit") = none :=
      Option.isNone_iff_eq_none.mp hfind
    simp [Js.getField, jsLookupField, hfind2]
  · constructor
    · intro hEmpty
      simp only [RateLimitInfo.isEmpty, Bool.and_eq_true, Option.isNone_iff_eq_none] at hEmpty
      obtain ⟨⟨⟨⟨hl, hr⟩, ha⟩, ht⟩, hre⟩ := hEmpty
      refine ⟨?_, ?_, ?_, ?_⟩
      · cases hc : headerTruthy h.xRateLimitLimit with
        | false => rfl
        | true => rw [hfl, hc] at hl; simp at hl
      · cases hc : headerTruthy h.xRateLimitRemaining with
        | false => rfl
        | true => rw [hfr, hc] at hr; simp at hr
      · cases hc : headerTruthy h.xRateLimitReset with
        | false => rfl
        | true =>
            obtain ⟨t, iso, hra, _⟩ := hrst1 hc
            rw [hra] at ha
            simp at ha
      · cases hc : headerTruthy h.retryAfter with
        | false => rfl
        | true => rw [hfa, hc] at hre; simp at hre
    · rintro ⟨hl, hr, ht, hre⟩
      have h1 := hLimF hl
      have h2 := hRemF hr
      have h3 := hrst0 ht
      have h4 := hRetF hre
      simp [RateLimitInfo.isEmpty, h1, h2, h3.1, h3.2, h4]
  · intro hlim
    obtain ⟨l, rem, ra, rt, retA⟩ := rl
    simp only at hlim
    subst hlim
    cases rem <;> cases ra <;> cases rt <;> cases retA <;> rfl

/-- C9 witness: a 200 response with no rate-limit header resolves the body
unchanged, with no rateLimit field; with an `x-ratelimit-limit: 100` header
the rateLimit object (holding only `limit`) is injected. -/
theorem success_rateLimit_injection_witness :
    ((200 : Int) ≤ 200 ∧ (200 : Int) < 300) ∧
    extractRateLimit {} = .ok {} ∧
    RateLimitInfo.isEmpty {} = true ∧
    requestOutcome cfg0 (.response 200 {} (.ok (.obj [("success", .bool true)]))) =
      .ok (.obj [("success", .bool true)]) ∧
    Js.getField (.obj [("success", Js.bool true)]) "rateLimit" = .ok .undefined ∧
    extractRateLimit { xRateLimitLimit := some "100" } =
      .ok { limit := some (.int 100) } ∧
    requestOutcome cfg0 (.response 200 { xRateLimitLimit := some "100" }
        (.ok (.obj [("success", .bool true)]))) =
      .ok (.obj [("success", .bool true),
                 ("rateLimit", .obj [("limit", .num (.int 100))])]) :=
  ⟨by decide, rfl, rfl,
   (success_rateLimit_injection cfg0 200 {} [("success", .bool true)] {}
      (by decide) rfl).1 rfl,
   (success_rateLimit_injection cfg0 200 {} [("success", .bool true)] {}
      (by decide) rfl).2.2.1 rfl,
   rfl,
   ((success_rateLimit_injection cfg0 200 { xRateLimitLimit := some "100" }
      [("success", .bool true)] { limit := some (.int 100) }
      (by decide) rfl).2.1 rfl).trans rfl⟩

/-- C3: for a non-empty userId, `checkUser` issues exactly one POST to the
check endpoint with body {userId}, whatever the round-trip outcome; for an
empty userId it fails with the validation message and no network call; and
when the normalized response is an object, a falsy `success` field yields
the wrapped error built from the response's `error` field while a truthy
one returns the response's `data` field. -/
theorem checkUser_contract (cfg : Config) (userId : String) (ev : TransportEvent)
    (hne : userId ≠ "") :
    (checkUser cfg userId ev).2 =
      [{ method := "POST", endpoint := checkEndpoint,
         body := some (.obj [("userId", .str userId)]) }] ∧
    (∀ ev2, checkUser cfg "" ev2 = (.error "User ID is required", [])) ∧
    (∀ fields, requestOutcome cfg ev = .ok (.obj fields) →
      ((jsLookupField fields "success").truthy = false →
        (checkUser cfg userId ev).1 =
          .error ("Failed to check user: " ++
            (jsOr (jsLookupField fields "error") (.str "Failed to check user")).display)) ∧
      ((jsLookupField fields "success").truthy = true →
        (checkUser cfg userId ev).1 = .ok (jsLookupField fields "data"))) := by
  refine ⟨?_, ?_, ?_⟩
  · simp [checkUser, hne]
  · intro ev2; simp [checkUser]
  · intro fields hok
    constructor
    · intro hfalse
      simp [checkUser, hne, wrapCatch, operationTry, hok, Js.getField, hfalse,
        CaughtError.messageJs, Js.display]
    · intro htrue
      simp [checkUser, hne, wrapCatch, operationTry, hok, Js.getField, htrue,
        projectData]

/-- C3 witness: userId "123" issues the single POST with body {userId};
an empty userId is rejected before any call; a success-false response is
wrapped with the operation prefix around the response's error field; a
success-true response returns its data field. -/
theorem checkUser_contract_witness :
    ("123" : String) ≠ "" ∧
    requestOutcome cfg0 (.response 200 {}
        (.ok (.obj [("success", .bool true), ("data", .str "payload")]))) =
      .ok (.obj [("success", .bool true), ("data", .str "payload")]) ∧
    (checkUser cfg0 "123" (.response 200 {}
        (.ok (.obj [("success", .bool true), ("data", .str "payload")])))).2 =
      [{ method := "POST", endpoint := checkEndpoint,
         body := some (.obj [("userId", .str "123")]) }] ∧
    checkUser cfg0 "" .timeout = (.error "User ID is required", []) ∧
    (checkUser cfg0 "123" (.response 200 {}
        (.ok (.obj [("success", .bool true), ("data", .str "payload")])))).1 =
      .ok (.str "payload") ∧
    (checkUser cfg0 "123" (.response 200 {}
        (.ok (.obj [("success", .bool false), ("error", .str "nope")])))).1 =
      .error "Failed to check user: nope" :=
  ⟨by decide, rfl,
   (checkUser_contract cfg0 "123"
      (.response 200 {} (.ok (.obj [("success", .bool true), ("data", .str "payload")])))
      (by decide)).1,
   (checkUser_contract cfg0 "123"
      (.response 200 {} (.ok (.obj [("success", .bool true), ("data", .str "payload")])))
      (by decide)).2.1 .timeout,
   (((checkUser_contract cfg0 "123"
      (.response 200 {} (.ok (.obj [("success", .bool true), ("data", .str "payload")])))
      (by decide)).2.2 [("success", .bool true), ("data", .str "payload")] rfl).2 rfl).trans rfl,
   (((checkUser_contract cfg0 "123"
      (.response 200 {} (.ok (.obj [("success", .bool false), ("error", .str "nope")])))
      (by decide)).2.2 [("success", .bool false), ("error", .str "nope")] rfl).1 rfl).trans rfl⟩

/-- C4: `reportAction` validates before any network call.  The first falsy
required field — in the order userId, guildId, actionType, reason,
moderatorId — is named in the validation error with no call issued; and
when all five are present, an actionType outside the fixed nine-value set
fails with the error listing the valid set, again with no call issued. -/
theorem reportAction_validation (cfg : Config) (actionData : List (String × Js))
    (ev : TransportEvent) :
    ((jsLookupField actionData "userId").truthy = false →
       reportAction cfg actionData ev = (.error "userId is required", [])) ∧
    ((jsLookupField actionData "userId").truthy = true →
     (jsLookupField actionData "guildId").truthy = false →
       reportAction cfg actionData ev = (.error "guildId is required", [])) ∧
    ((jsLookupField actionData "userId").truthy = true →
     (jsLookupField actionData "guildId").truthy = true →
     (jsLookupField actionData "actionType").truthy = false →
       reportAction cfg actionData ev = (.error "actionType is required", [])) ∧
    ((jsLookupField actionData "userId").truthy = true →
     (jsLookupField actionData "guildId").truthy = true →
     (jsLookupField actionData "actionType").truthy = true →
     (jsLookupField actionData "reason").truthy = false →
       reportAction cfg actionData ev = (.error "reason is required", [])) ∧
    ((jsLookupField actionData "userId").truthy = true →
     (jsLookupField actionData "guildId").truthy = true →
     (jsLookupField actionData "actionType").truthy = true →
     (jsLookupField actionData "reason").truthy = true →
     (jsLookupField actionData "moderatorId").truthy = false →
       reportAction cfg actionData ev = (.error "moderatorId is required", [])) ∧
    ((∀ f ∈ requiredFields, (jsLookupField actionData f).truthy = true) →
     includesJs validActions (jsLookupField actionData "actionType") = false →
       reportAction cfg actionData ev =
         (.error ("Invalid action type. Must be one of: " ++
                  String.intercalate ", " validActions), [])) := by
  refine ⟨?_, ?_, ?_, ?_, ?_, ?_⟩
  · intro h1
    simp [reportAction, requiredFields, List.find?, h1]
  · intro h1 h2
    simp [reportAction, requiredFields, List.find?, h1, h2]
  · intro h1 h2 h3
    simp [reportAction, requiredFields, List.find?, h1, h2, h3]
  · intro h1 h2 h3 h4
    simp [reportAction, requiredFields, List.find?, h1, h2, h3, h4]
  · intro h1 h2 h3 h4 h5
    simp [reportAction, requiredFields, List.find?, h1, h2, h3, h4, h5]
  · intro hall hinc
    have h1 := hall "userId" (by simp [requiredFields])
    have h2 := hall "guildId" (by simp [requiredFields])
    have h3 := hall "actionType" (by simp [requiredFields])
    have h4 := hall "reason" (by simp [requiredFields])
    have h5 := hall "moderatorId" (by simp [requiredFields])
    simp [reportAction, requiredFields, List.find?, h1, h2, h3, h4, h5, hinc]

/-- C4 witness: omitting guildId alone names guildId with no network call;
with all five fields present, actionType "banhammer" (outside the nine-value
set) fails listing the valid set, with no network call; and that error text
spells out the full enumerated set. -/
theorem reportAction_validation_witness :
    reportAction cfg0
        [("userId", .str "1"), ("actionType", .str "ban"),
         ("reason", .str "r"), ("moderatorId", .str "3")] .timeout =
      (.error "guildId is required", []) ∧
    includesJs validActions (.str "banhammer") = false ∧
    reportAction cfg0
        [("userId", .str "1"), ("guildId", .str "2"), ("actionType", .str "banhammer"),
         ("reason", .str "r"), ("moderatorId", .str "3")] .timeout =
      (.error ("Invalid action type. Must be one of: " ++
               String.intercalate ", " validActions), []) ∧
    "Invalid action type. Must be one of: " ++ String.intercalate ", " validActions =
      "Invalid action type. Must be one of: ban, kick, timeout, mute, warn, unban, untimeout, unmute, remove_warning" :=
  ⟨(reportAction_validation cfg0
      [("userId", .str "1"), ("actionType", .str "ban"),
       ("reason", .str "r"), ("moderatorId", .str "3")] .timeout).2.1 rfl rfl,
   rfl,
   (reportAction_validation cfg0
      [("userId", .str "1"), ("guildId", .str "2"), ("actionType", .str "banhammer"),
       ("reason", .str "r"), ("moderatorId", .str "3")] .timeout).2.2.2.2.2
     (by decide) rfl,
   rfl⟩

end Shield
